import Mathlib

/-!
# nomad-droplets-autoscaler: scaling director, template builder, retirement sequence

A shallow embedding of `plugin/plugin.go` and `plugin/shutdown.go`.

* Go `string` values are Lean `String`s; byte-level loops of the Go standard
  library run over the characters of the string (every byte of a non-ASCII
  character is `≥ 0x80`, and so is its code point: both fall in the same branch
  of every test below).
* Go `map[string]string` values are lookup functions `String → Option String`;
  the nil map is the function that is `none` everywhere.
* Go `int64` values are `Int`s; arithmetic that can overflow is wrapped to the
  64-bit two's-complement range explicitly.
* Calls to the provider are recorded, in order, in an explicit event list.
-/

namespace DropletsAutoscaler

/-! ## Go values -/

/-- Go `map[string]string`, read-only: `m k` is the comma-ok lookup `m[k]`. -/
abbrev Config := String → Option String

/-- Range predicate of Go `int64`. -/
def isInt64 (x : Int) : Prop := -(2 ^ 63) ≤ x ∧ x < 2 ^ 63

instance (x : Int) : Decidable (isInt64 x) := by
  unfold isInt64; infer_instance

/-- Two's-complement wrap of a mathematical integer to `int64`. -/
def wrapInt64 (x : Int) : Int := (x + 2 ^ 63) % 2 ^ 64 - 2 ^ 63

/-- Go `a - b` on `int64` operands. -/
def subInt64 (a b : Int) : Int := wrapInt64 (a - b)

/-- Go error values, as far as the plugin distinguishes them.
`errorString` is what `errors.New` and `fmt.Errorf` without a `%w` verb give,
`wrapError` is what `fmt.Errorf` with `%w` gives, and `errorResponse` is
`*godo.ErrorResponse`: `Response` is the HTTP status code of its `Response`
field, or `none` when that pointer is nil; `text` is what its `Error` method
renders. -/
inductive GoError where
  | errorString (s : String)
  | wrapError (msg : String) (err : GoError)
  | errorResponse (Response : Option Nat) (text : String)
  deriving DecidableEq, Repr

namespace GoError

/-- The `Error() string` method. -/
def Error : GoError → String
  | errorString s => s
  | wrapError msg _ => msg
  | errorResponse _ text => text

/-- Go `errors.Unwrap`: the result of the `Unwrap() error` method when the
error has one, nil otherwise. -/
def Unwrap : GoError → Option GoError
  | wrapError _ err => some err
  | _ => none

/-- Go `errors.As(err, &doError)` with `doError : *godo.ErrorResponse`: the
first error response in the chain, as its `Response` field. -/
def AsErrorResponse : GoError → Option (Option Nat)
  | errorString _ => none
  | wrapError _ err => AsErrorResponse err
  | errorResponse r _ => some r

end GoError

/-- Go `fmt.Errorf(format ++ "%v", err)` (also `%s`): the argument is rendered
through its `Error` method and the result carries no `Unwrap` method. -/
def Errorf_v (format : String) (err : GoError) : GoError :=
  .errorString (format ++ err.Error)

/-! ## plugin.go: constants -/

def configKeyRegion : String := "region"
def configKeySize : String := "size"
def configKeyVpcUUID : String := "vpc_uuid"
def configKeySnapshotID : String := "snapshot_id"
def configKeySshKeys : String := "ssh_keys"
def configKeyUserData : String := "user_data"
def configKeyName : String := "name"
def configKeyTags : String := "tags"

/-- The part of `TargetPlugin` the modelled methods read: the stored plugin
configuration set by `SetConfig`. -/
structure TargetPlugin where
  config : Config

/-! ## plugin.go: `getValue` and `calculateDirection` -/

/-- `TargetPlugin.getValue`. -/
def getValue (t : TargetPlugin) (config : Config) (name : String) : String × Bool :=
  match config name with
  | some v => (v, true)
  | none =>
    match t.config name with
    | some v => (v, true)
    | none => ("", false)

/-- `TargetPlugin.calculateDirection`; the receiver is not used. -/
def calculateDirection (target desired : Int) : Int × String :=
  if desired < target then (subInt64 target desired, "in")
  else if desired > target then (subInt64 desired target, "out")
  else (0, "")

/-! ## Go standard library: `strconv.ParseInt`, `strings.Split`, `strings.Join` -/

/-- The two sentinel causes of a `*strconv.NumError`. -/
inductive NumError where
  | ErrSyntax
  | ErrRange
  deriving DecidableEq, Repr

/-- Go `strconv.IntSize`: the size in bits of `int` on the 64-bit targets the
plugin is built for. -/
def IntSize : Nat := 64

/-- Go `maxUint64`. -/
def maxUint64 : Nat := 2 ^ 64 - 1

/-- The helper `lower` of package strconv on a byte: `c | ('x' - 'X')`. -/
def lower (c : Nat) : Nat := c ||| 0x20

/-- The digit loop of `strconv.ParseUint` for base 10 (no underscores are
accepted, as the base is not 0): `n` is the accumulator, a `uint64`. The
result is Go's pair of value and error. -/
def ParseUint.loop (maxVal : Nat) : Nat → List Char → Nat × Option NumError
  | n, [] => (n, none)
  | n, c :: cs =>
    let d? : Option Nat :=
      if '0'.toNat ≤ c.toNat ∧ c.toNat ≤ '9'.toNat then some (c.toNat - '0'.toNat)
      else if 'a'.toNat ≤ lower c.toNat ∧ lower c.toNat ≤ 'z'.toNat then
        some (lower c.toNat - 'a'.toNat + 10)
      else none
    match d? with
    | none => (0, some .ErrSyntax)
    | some d =>
      if d ≥ 10 then (0, some .ErrSyntax)
      else if n ≥ maxUint64 / 10 + 1 then (maxVal, some .ErrRange)
      else
        let n10 := (n * 10) % 2 ^ 64
        let n1 := (n10 + d) % 2 ^ 64
        if n1 < n10 ∨ n1 > maxVal then (maxVal, some .ErrRange)
        else ParseUint.loop maxVal n1 cs

/-- Go `strconv.ParseUint(s, 10, bitSize)` for `0 ≤ bitSize ≤ 64`. -/
def ParseUint (s : List Char) (bitSize : Nat) : Nat × Option NumError :=
  if s = [] then (0, some .ErrSyntax)
  else
    let bitSize := if bitSize = 0 then IntSize else bitSize
    let maxVal := 2 ^ bitSize - 1
    ParseUint.loop maxVal 0 s

/-- Go `strconv.ParseInt(s, 10, bitSize)` for `0 ≤ bitSize ≤ 64`. -/
def ParseInt (s : String) (bitSize : Nat) : Int × Option NumError :=
  match s.data with
  | [] => (0, some .ErrSyntax)
  | c :: cs =>
    let neg := c = '-'
    let s1 := if c = '+' then cs else if c = '-' then cs else c :: cs
    match ParseUint s1 bitSize with
    | (_, some .ErrSyntax) => (0, some .ErrSyntax)
    | (un, _) =>
      let bitSize := if bitSize = 0 then IntSize else bitSize
      let cutoff := 2 ^ (bitSize - 1)
      if ¬ neg ∧ un ≥ cutoff then ((cutoff : Int) - 1, some .ErrRange)
      else if neg ∧ un > cutoff then (-(cutoff : Int), some .ErrRange)
      else if neg then (wrapInt64 (-(wrapInt64 un)), none)
      else (wrapInt64 un, none)

/-- Go `strings.IndexByte(s, c)`; `none` stands for `-1`. -/
def IndexByte (c : Char) : List Char → Option Nat
  | [] => none
  | x :: xs => if x = c then some 0 else (IndexByte c xs).map (· + 1)

/-- Go `strings.Count(s, sep)` for a one-byte separator. -/
def Count (c : Char) : List Char → Nat
  | [] => 0
  | x :: xs => (if x = c then 1 else 0) + Count c xs

/-- The loop of `strings.genSplit(s, sep, 0, n)` for a one-byte separator:
the first argument is the number of iterations left (`n - 1 - i`). -/
def genSplit.loop (sep : Char) : Nat → List Char → List (List Char)
  | 0, s => [s]
  | k + 1, s =>
    match IndexByte sep s with
    | none => [s]
    | some m => s.take m :: genSplit.loop sep k (s.drop (m + 1))

/-- Go `strings.Split(s, ",")`. -/
def Split (s : String) : List String :=
  (genSplit.loop ',' (Count ',' s.data) s.data).map String.mk

/-- Go `strings.Join(elems, sep)`. -/
def Join : List String → String → String
  | [], _ => ""
  | [a], _ => a
  | a :: b :: rest, sep => a ++ sep ++ Join (b :: rest) sep

/-! ## Reference notions for the standard-library routines -/

/-- The natural number a string of decimal digits denotes, continuing from the
value `n` of the digits already read. -/
def digitsValue : Nat → List Char → Nat
  | n, [] => n
  | n, c :: cs => digitsValue (10 * n + (c.toNat - 48)) cs

/-- The value of an unsigned decimal numeral: one or more decimal digits. -/
def decimalNat (ds : List Char) : Option Nat :=
  if ds ≠ [] ∧ ds.all Char.isDigit then some (digitsValue 0 ds) else none

/-- The value of a base-10 integer numeral: an optional sign `+` or `-`
followed by one or more decimal digits. -/
def decimalInt (s : String) : Option Int :=
  match s.data with
  | [] => none
  | c :: cs =>
    if c = '+' then (decimalNat cs).map (fun (u : Nat) => (u : Int))
    else if c = '-' then (decimalNat cs).map (fun (u : Nat) => -(u : Int))
    else (decimalNat (c :: cs)).map (fun (u : Nat) => (u : Int))

/-- A valid base-10 integer within the range of the platform `int`. -/
def validInt (s : String) : Prop := ∃ v, decimalInt s = some v ∧ isInt64 v

/-- The characters of `Join elems sep`, on character lists. -/
def joinData (sep : List Char) : List (List Char) → List Char
  | [] => []
  | [a] => a
  | a :: b :: rest => a ++ sep ++ joinData sep (b :: rest)

/-! ## plugin.go: `createDropletTemplate` -/

/-- Modelled from the spec: the struct `dropletTemplate` is declared elsewhere
in package plugin; its fields are the ones the struct literal in
`createDropletTemplate` fills (the instance template of the data model). -/
structure dropletTemplate where
  region : String
  size : String
  vpc : String
  snapshotID : Int
  name : String
  sshKeys : List String
  userData : String
  tags : List String
  deriving DecidableEq, Repr

/-- Go `fmt.Errorf("required config param %s not found", key)`. -/
def errRequiredParam (key : String) : GoError :=
  .errorString ("required config param " ++ key ++ " not found")

/-- Go `fmt.Errorf("invalid value for config param %s", key)`. -/
def errInvalidParam (key : String) : GoError :=
  .errorString ("invalid value for config param " ++ key)

/-- `TargetPlugin.createDropletTemplate`: Go's pair of template pointer and
error. -/
def createDropletTemplate (t : TargetPlugin) (config : Config) :
    Option dropletTemplate × Option GoError :=
  let (name, ok) := getValue t config configKeyName
  if !ok then (none, some (errRequiredParam configKeyName)) else
  let (region, ok) := getValue t config configKeyRegion
  if !ok then (none, some (errRequiredParam configKeyRegion)) else
  let (size, ok) := getValue t config configKeySize
  if !ok then (none, some (errRequiredParam configKeySize)) else
  let (vpc, ok) := getValue t config configKeyVpcUUID
  if !ok then (none, some (errRequiredParam configKeyVpcUUID)) else
  let (snapshot, ok) := getValue t config configKeySnapshotID
  if !ok then (none, some (errRequiredParam configKeySnapshotID)) else
  let (snapshotID, err) := ParseInt snapshot 0
  if err ≠ none then (none, some (errInvalidParam configKeySnapshotID)) else
  let (sshKeyFingerprintAsString, _) := getValue t config configKeySshKeys
  let (tagsAsString, _) := getValue t config configKeyTags
  let (userData, _) := getValue t config configKeyUserData
  let tags := [name]
  let tags := if tagsAsString.length ≠ 0 then tags ++ Split tagsAsString else tags
  let sshKeyFingerprints : List String := []
  let sshKeyFingerprints :=
    if sshKeyFingerprintAsString.length ≠ 0 then
      sshKeyFingerprints ++ Split sshKeyFingerprintAsString
    else sshKeyFingerprints
  (some {
    region := region
    size := size
    vpc := vpc
    snapshotID := snapshotID
    name := name
    sshKeys := sshKeyFingerprints
    userData := userData
    tags := tags }, none)

/-- The five required keys, in the order `createDropletTemplate` reads them. -/
def requiredKeys : List String :=
  [configKeyName, configKeyRegion, configKeySize, configKeyVpcUUID, configKeySnapshotID]

/-- A key is absent when neither the per-call config nor the stored config
holds it. -/
def isAbsent (t : TargetPlugin) (config : Config) (key : String) : Bool :=
  (config key).isNone && (t.config key).isNone

/-- The first required key, in reading order, that is absent from both
mappings. -/
def firstAbsentKey (t : TargetPlugin) (config : Config) : Option String :=
  requiredKeys.find? (isAbsent t config)

/-! ## plugin.go: `Scale` -/

/-- How a Go call ends: it returns an `error` (nil is `none`), or it panics. -/
inductive Outcome where
  | returned (err : Option GoError)
  | panic
  deriving DecidableEq, Repr

/-- A `godo.Droplet`, by its identifier. -/
structure Droplet where
  ID : Int
  deriving DecidableEq, Repr

/-- The `sdk.ScalingAction` field `Scale` reads: the desired count, an
`int64`. -/
structure ScalingAction where
  Count : Int
  deriving DecidableEq, Repr

/-- What `Scale` uses and `plugin.go` does not declare, taken as parameters:
the dry-run sentinel `sdk.StrategyActionMetaValueDryRunCount` of the
autoscaler sdk, and the methods `getDroplets`, `scaleIn` and `scaleOut` of
`TargetPlugin`, each by the result it returns for its arguments. -/
structure Collaborators where
  StrategyActionMetaValueDryRunCount : Int
  getDroplets : dropletTemplate → List Droplet × Option GoError
  scaleIn : List Droplet → Int → Int → dropletTemplate → Config → Option GoError
  scaleOut : Int → Int → dropletTemplate → Config → Option GoError

/-- What `Scale` does besides returning, in order. -/
inductive Call where
  | createDropletTemplate
  | getDroplets (template : dropletTemplate)
  | scaleIn (droplets : List Droplet) (count diff : Int) (template : dropletTemplate)
  | scaleOut (count diff : Int) (template : dropletTemplate)
  | logInfo (msg : String)
  deriving DecidableEq, Repr

/-- `TargetPlugin.Scale`: the outcome and the calls made. -/
def Scale (x : Collaborators) (t : TargetPlugin) (action : ScalingAction) (config : Config) :
    Outcome × List Call :=
  if action.Count = x.StrategyActionMetaValueDryRunCount then (.returned none, [])
  else
    match createDropletTemplate t config with
    | (_, some err) => (.returned (some err), [.createDropletTemplate])
    | (none, none) => (.panic, [.createDropletTemplate])
    | (some template, none) =>
      let calls := [Call.createDropletTemplate, .getDroplets template]
      match x.getDroplets template with
      | (_, some err) =>
        (.returned (some (Errorf_v "failed to describe DigitalOcedroplets: " err)), calls)
      | (droplets, none) =>
        let total : Int := droplets.length
        let (diff, direction) := calculateDirection total action.Count
        if direction = "in" then
          let calls := calls ++ [.scaleIn droplets action.Count diff template]
          match x.scaleIn droplets action.Count diff template config with
          | some err =>
            (.returned (some (Errorf_v "failed to perform scaling action: " err)), calls)
          | none => (.returned none, calls)
        else if direction = "out" then
          let calls := calls ++ [.scaleOut action.Count diff template]
          match x.scaleOut action.Count diff template config with
          | some err =>
            (.returned (some (Errorf_v "failed to perform scaling action: " err)), calls)
          | none => (.returned none, calls)
        else (.returned none, calls ++ [.logInfo "scaling not required"])

/-! ## shutdown.go: `shutdownDroplet` -/

/-- The two services of `*godo.Client` that `shutdownDroplet` calls, each by
the error it returns for a droplet id (nil is `none`). -/
structure Client where
  PowerOff : Int → Option GoError
  Delete : Int → Option GoError

/-- Go `time.Minute`, in nanoseconds. -/
def Minute : Int := 60 * 1000000000

/-- Go `http.StatusNotFound`. -/
def StatusNotFound : Nat := 404

/-- What `shutdownDroplet` does besides returning, in order. -/
inductive ShutdownCall where
  | logDebug (msg : String)
  | logWarn (msg : String)
  | PowerOff (dropletId : Int)
  | waitForDropletState (state : String) (dropletId : Int) (timeout : Int)
  | Delete (dropletId : Int)
  deriving DecidableEq, Repr

/-- `shutdownDroplet`: the outcome and the calls made. Its first argument is the
function `waitForDropletState`, declared elsewhere in package plugin, by the
error it returns (the state poller: nil when the state was reached, an error
on timeout). -/
def shutdownDroplet (waitForDropletState : String → Int → Int → Option GoError)
    (dropletId : Int) (client : Client) : Outcome × List ShutdownCall :=
  let calls := [ShutdownCall.logDebug "Gracefully shutting down droplet...",
    .PowerOff dropletId]
  match client.PowerOff dropletId with
  | some err => (.returned (some (Errorf_v "error shutting down droplet: " err)), calls)
  | none =>
    let calls := calls ++ [.waitForDropletState "off" dropletId (5 * Minute)]
    let calls :=
      match waitForDropletState "off" dropletId (5 * Minute) with
      | some _ => calls ++ [.logWarn "Timeout while waiting to for droplet to become 'off'"]
      | none => calls
    let calls := calls ++ [.logDebug "Deleting Droplet...", .Delete dropletId]
    match client.Delete dropletId with
    | none => (.returned none, calls)
    | some err =>
      match err.AsErrorResponse with
      | some none => (.panic, calls)
      | some (some StatusCode) =>
        if StatusCode = StatusNotFound then
          (.returned none, calls ++ [.logWarn
            "encountered 404 while deleting droplet. assuming it was already deleted an continuing"])
        else (.returned (some (Errorf_v "error deleting droplet: " err)), calls)
      | none => (.returned (some (Errorf_v "error deleting droplet: " err)), calls)

/-! ## Sample inputs -/

/-- A stored plugin configuration holding the region and the size. -/
def sampleStored : TargetPlugin :=
  ⟨fun k => if k = "region" then some "nyc3" else if k = "size" then some "s-1vcpu-1gb" else none⟩

/-- A per-call configuration with the name "web", a network, and the given
snapshot id, tags and ssh keys. -/
def sampleConfig (snapshot : String) (tags sshKeys : Option String) : Config :=
  fun k =>
    if k = "name" then some "web"
    else if k = "vpc_uuid" then some "net-1"
    else if k = "snapshot_id" then some snapshot
    else if k = "tags" then tags
    else if k = "ssh_keys" then sshKeys
    else none

/-- The template built from `sampleStored` and `sampleConfig`, up to its
snapshot id, ssh keys and tags. -/
def sampleTemplate (snapshotID : Int) (sshKeys tags : List String) : dropletTemplate :=
  { region := "nyc3", size := "s-1vcpu-1gb", vpc := "net-1", snapshotID := snapshotID,
    name := "web", sshKeys := sshKeys, userData := "", tags := tags }

/-- Collaborators with the dry-run sentinel `-1`, a listing that succeeds with
the given droplets, and executors that return the given errors. -/
def sampleCollaborators (droplets : List Droplet) (inErr outErr : Option GoError) :
    Collaborators :=
  { StrategyActionMetaValueDryRunCount := -1
    getDroplets := fun _ => (droplets, none)
    scaleIn := fun _ _ _ _ _ => inErr
    scaleOut := fun _ _ _ _ => outErr }

/-- A client whose power-off and delete calls return the given errors. -/
def sampleClient (powerOff delete : Option GoError) : Client :=
  { PowerOff := fun _ => powerOff, Delete := fun _ => delete }

/-! ## Theorems -/

theorem wrapInt64_of_isInt64 {x : Int} (h : isInt64 x) : wrapInt64 x = x := by
  unfold isInt64 at h
  unfold wrapInt64
  omega

/-- Sample runs of the standard-library models. -/
theorem stdlib_samples :
    ParseInt "42" 0 = (42, none) ∧
    ParseInt "-7" 0 = (-7, none) ∧
    ParseInt "+3" 0 = (3, none) ∧
    ParseInt "007" 0 = (7, none) ∧
    ParseInt "" 0 = (0, some .ErrSyntax) ∧
    ParseInt "-" 0 = (0, some .ErrSyntax) ∧
    ParseInt " 1" 0 = (0, some .ErrSyntax) ∧
    ParseInt "1_0" 0 = (0, some .ErrSyntax) ∧
    ParseInt "1a" 0 = (0, some .ErrSyntax) ∧
    ParseInt "9223372036854775807" 0 = (9223372036854775807, none) ∧
    ParseInt "9223372036854775808" 0 = (9223372036854775807, some .ErrRange) ∧
    ParseInt "-9223372036854775808" 0 = (-9223372036854775808, none) ∧
    ParseInt "-9223372036854775809" 0 = (-9223372036854775808, some .ErrRange) ∧
    ParseInt "18446744073709551616" 0 = (9223372036854775807, some .ErrRange) ∧
    ParseInt "99999999999999999999x" 0 = (9223372036854775807, some .ErrRange) ∧
    Split "a,b" = ["a", "b"] ∧
    Split " a,,b ," = [" a", "", "b ", ""] ∧
    Split "" = [""] ∧
    Join ["a", "", "b"] "," = "a,,b" := by
  refine ⟨?_, ?_, ?_, ?_, ?_, ?_, ?_, ?_, ?_, ?_, ?_, ?_, ?_, ?_, ?_, ?_, ?_, ?_, ?_⟩ <;> decide

/-! ### `strconv.ParseInt` against the decimal numerals -/

theorem isDigit_iff (c : Char) : c.isDigit = true ↔ 48 ≤ c.toNat ∧ c.toNat ≤ 57 := by
  simp [Char.isDigit, Char.toNat, UInt32.le_def, UInt32.toNat, BitVec.le_def]

theorem le_digitsValue (n : Nat) (cs : List Char) : n ≤ digitsValue n cs := by
  induction cs generalizing n with
  | nil => exact Nat.le_refl _
  | cons c cs ih =>
    have := ih (10 * n + (c.toNat - 48))
    show n ≤ digitsValue (10 * n + (c.toNat - 48)) cs
    omega

theorem cutoff_eq : maxUint64 / 10 + 1 = 1844674407370955162 := by
  norm_num [maxUint64]

/-- The digit loop on a string of digits whose value fits. -/
theorem loop_ok (M : Nat) (hM : M < 2 ^ 64) (cs : List Char) :
    ∀ n, cs.all Char.isDigit = true → digitsValue n cs ≤ M →
      ParseUint.loop M n cs = (digitsValue n cs, none) := by
  induction cs with
  | nil => intro n _ _; rfl
  | cons c cs ih =>
    intro n hall hle
    simp only [List.all_cons, Bool.and_eq_true] at hall
    obtain ⟨hc, hcs⟩ := hall
    have hd := (isDigit_iff c).1 hc
    have hmono : 10 * n + (c.toNat - 48) ≤ digitsValue (10 * n + (c.toNat - 48)) cs :=
      le_digitsValue _ cs
    have hle1 : digitsValue (10 * n + (c.toNat - 48)) cs ≤ M := hle
    have h0 : '0'.toNat = 48 := by decide
    have h9 : '9'.toNat = 57 := by decide
    show _ = (digitsValue (10 * n + (c.toNat - 48)) cs, none)
    rw [← ih _ hcs hle1]
    simp only [ParseUint.loop, h0, h9, hd, and_self, if_true, cutoff_eq]
    have e1 : n * 10 % 2 ^ 64 = 10 * n := by omega
    have e2 : (10 * n + (c.toNat - 48)) % 2 ^ 64 = 10 * n + (c.toNat - 48) := by omega
    rw [e1, e2]
    have c1 : ¬ (c.toNat - 48 ≥ 10) := by omega
    have c2 : ¬ (n ≥ 1844674407370955162) := by omega
    have c3 : ¬ (10 * n + (c.toNat - 48) < 10 * n ∨ 10 * n + (c.toNat - 48) > M) := by omega
    rw [if_neg c1, if_neg c2, if_neg c3]

/-- The digit loop on any other input: an error, and a range error comes with
the value `maxVal`. -/
theorem loop_err (M : Nat) (cs : List Char) :
    ∀ n, n ≤ M → ¬ (cs.all Char.isDigit = true ∧ digitsValue n cs ≤ M) →
      (ParseUint.loop M n cs).2 = some .ErrSyntax ∨
      ParseUint.loop M n cs = (M, some .ErrRange) := by
  induction cs with
  | nil => intro n hn h; exact absurd ⟨rfl, hn⟩ h
  | cons c cs ih =>
    intro n hn h
    have h0 : '0'.toNat = 48 := by decide
    have h9 : '9'.toNat = 57 := by decide
    have ha : 'a'.toNat = 97 := by decide
    have hz : 'z'.toNat = 122 := by decide
    simp only [ParseUint.loop, h0, h9, ha, hz, cutoff_eq]
    by_cases hd : 48 ≤ c.toNat ∧ c.toNat ≤ 57
    · simp only [hd, and_self, if_true]
      have c1 : ¬ (c.toNat - 48 ≥ 10) := by omega
      simp only [c1, if_false]
      by_cases c2 : n ≥ 1844674407370955162
      · simp [c2]
      · simp only [c2, if_false]
        have e1 : n * 10 % 2 ^ 64 = 10 * n := by omega
        rw [e1]
        by_cases c3 : (10 * n + (c.toNat - 48)) % 2 ^ 64 < 10 * n ∨
            (10 * n + (c.toNat - 48)) % 2 ^ 64 > M
        · rw [if_pos c3]; exact Or.inr rfl
        · rw [if_neg c3]
          have e2 : (10 * n + (c.toNat - 48)) % 2 ^ 64 = 10 * n + (c.toNat - 48) := by omega
          rw [e2]
          apply ih _ (by omega)
          intro hcon
          apply h
          refine ⟨?_, hcon.2⟩
          rw [List.all_cons, Bool.and_eq_true]
          exact ⟨(isDigit_iff c).2 hd, hcon.1⟩
    · rw [if_neg hd]
      by_cases hl : 97 ≤ lower c.toNat ∧ lower c.toNat ≤ 122
      · rw [if_pos hl]
        have c1 : lower c.toNat - 97 + 10 ≥ 10 := by omega
        left
        show Prod.snd (if lower c.toNat - 97 + 10 ≥ 10 then _ else _) = _
        rw [if_pos c1]
      · rw [if_neg hl]; exact Or.inl rfl

theorem ParseUint_spec (ds : List Char) :
    (∃ u, decimalNat ds = some u ∧ u < 2 ^ 64 ∧ ParseUint ds 0 = (u, none)) ∨
    ((∀ u, decimalNat ds = some u → 2 ^ 64 ≤ u) ∧
      ((ParseUint ds 0).2 = some .ErrSyntax ∨
        ParseUint ds 0 = (2 ^ 64 - 1, some .ErrRange))) := by
  unfold ParseUint decimalNat
  by_cases hnil : ds = []
  · right
    simp [hnil]
  · simp only [hnil, if_false, IntSize, if_true, ne_eq, not_false_eq_true, true_and]
    by_cases hok : ds.all Char.isDigit = true ∧ digitsValue 0 ds ≤ 2 ^ 64 - 1
    · left
      refine ⟨digitsValue 0 ds, by simp [hok.1], by omega, ?_⟩
      exact loop_ok _ (by norm_num) ds 0 hok.1 hok.2
    · right
      refine ⟨?_, loop_err _ ds 0 (by omega) hok⟩
      intro u hu
      by_cases hall : ds.all Char.isDigit = true
      · simp only [hall, if_true, Option.some.injEq] at hu
        have : ¬ digitsValue 0 ds ≤ 2 ^ 64 - 1 := fun h => hok ⟨hall, h⟩
        omega
      · simp [hall] at hu

theorem not_isInt64_of_big {d : Option Nat} (f : Nat → Int)
    (hf : ∀ u : Nat, 2 ^ 64 ≤ u → ¬ isInt64 (f u))
    (hu : ∀ u, d = some u → 2 ^ 64 ≤ u) :
    ∀ v, d.map f = some v → ¬ isInt64 v := by
  intro v hv
  obtain ⟨u, hu1, rfl⟩ := Option.map_eq_some'.1 hv
  exact hf u (hu u hu1)

theorem ParseInt_spec (s : String) :
    (∃ v, decimalInt s = some v ∧ isInt64 v ∧ ParseInt s 0 = (v, none)) ∨
    ((∀ v, decimalInt s = some v → ¬ isInt64 v) ∧ (ParseInt s 0).2 ≠ none) := by
  unfold ParseInt decimalInt
  have hpos : ∀ u : Nat, 2 ^ 64 ≤ u → ¬ isInt64 ((fun (u : Nat) => (u : Int)) u) := by
    intro u h; unfold isInt64; simp only; omega
  have hneg : ∀ u : Nat, 2 ^ 64 ≤ u → ¬ isInt64 ((fun (u : Nat) => -(u : Int)) u) := by
    intro u h; unfold isInt64; simp only; omega
  cases hs : s.data with
  | nil => right; simp
  | cons c cs =>
    simp only [IntSize, if_true]
    have hpm : ¬ ('+' = '-') := by decide
    have e63 : (2 : Nat) ^ (64 - 1) = 9223372036854775808 := by norm_num
    have e64 : (2 : Nat) ^ 64 - 1 = 18446744073709551615 := by norm_num
    by_cases hplus : c = '+'
    · simp only [hplus, if_true, hpm, not_false_eq_true, true_and, false_and, if_false, e63]
      rcases ParseUint_spec cs with ⟨u, hu, hlt, hp⟩ | ⟨hu, hp | hp⟩
      · rw [hp, hu]
        simp only [Option.map_some', Option.some.injEq]
        by_cases hr : u ≥ 9223372036854775808
        · right
          rw [if_pos hr]
          refine ⟨?_, by simp⟩
          rintro v rfl
          unfold isInt64
          omega
        · left
          rw [if_neg hr]
          have hi : isInt64 (u : Int) := by unfold isInt64; omega
          exact ⟨_, rfl, hi, by rw [wrapInt64_of_isInt64 hi]⟩
      · right
        refine ⟨not_isInt64_of_big _ hpos hu, ?_⟩
        rcases hq : ParseUint cs 0 with ⟨a, e⟩
        rw [hq] at hp
        simp only at hp
        subst hp
        simp
      · right
        refine ⟨not_isInt64_of_big _ hpos hu, ?_⟩
        rw [hp, e64]
        simp
    · simp only [hplus, if_false]
      by_cases hminus : c = '-'
      · simp only [hminus, if_true, not_true_eq_false, true_and, false_and, if_false, e63]
        rcases ParseUint_spec cs with ⟨u, hu, hlt, hp⟩ | ⟨hu, hp | hp⟩
        · rw [hp, hu]
          simp only [Option.map_some', Option.some.injEq]
          by_cases hr : u > 9223372036854775808
          · right
            rw [if_pos hr]
            refine ⟨?_, by simp⟩
            rintro v rfl
            unfold isInt64
            omega
          · left
            rw [if_neg hr]
            have hi : isInt64 (-(u : Int)) := by unfold isInt64; omega
            refine ⟨_, rfl, hi, ?_⟩
            have : wrapInt64 (-wrapInt64 (u : Int)) = -(u : Int) := by
              unfold wrapInt64; omega
            rw [this]
        · right
          refine ⟨not_isInt64_of_big _ hneg hu, ?_⟩
          rcases hq : ParseUint cs 0 with ⟨a, e⟩
          rw [hq] at hp
          simp only at hp
          subst hp
          simp
        · right
          refine ⟨not_isInt64_of_big _ hneg hu, ?_⟩
          rw [hp, e64]
          simp
      · simp only [hminus, if_false, not_false_eq_true, true_and, false_and, e63]
        rcases ParseUint_spec (c :: cs) with ⟨u, hu, hlt, hp⟩ | ⟨hu, hp | hp⟩
        · rw [hp, hu]
          simp only [Option.map_some', Option.some.injEq]
          by_cases hr : u ≥ 9223372036854775808
          · right
            rw [if_pos hr]
            refine ⟨?_, by simp⟩
            rintro v rfl
            unfold isInt64
            omega
          · left
            rw [if_neg hr]
            have hi : isInt64 (u : Int) := by unfold isInt64; omega
            exact ⟨_, rfl, hi, by rw [wrapInt64_of_isInt64 hi]⟩
        · right
          refine ⟨not_isInt64_of_big _ hpos hu, ?_⟩
          rcases hq : ParseUint (c :: cs) 0 with ⟨a, e⟩
          rw [hq] at hp
          simp only at hp
          subst hp
          simp
        · right
          refine ⟨not_isInt64_of_big _ hpos hu, ?_⟩
          rw [hp, e64]
          simp

/-! ### `strings.Split` against `strings.Join` -/

theorem Join_data (sep : String) (l : List String) :
    (Join l sep).data = joinData sep.data (l.map String.data) := by
  induction l with
  | nil => rfl
  | cons a l ih =>
    cases l with
    | nil => rfl
    | cons b rest =>
      simp only [Join, List.map_cons, joinData, String.data_append]
      rw [ih]
      simp [List.map_cons]

theorem Count_eq_zero {c : Char} {s : List Char} (h : c ∉ s) : Count c s = 0 := by
  induction s with
  | nil => rfl
  | cons x xs ih =>
    simp only [List.mem_cons, not_or] at h
    have hx : ¬ x = c := fun e => h.1 e.symm
    simp [Count, hx, ih h.2]

theorem IndexByte_none {c : Char} {s : List Char} (h : IndexByte c s = none) : c ∉ s := by
  induction s with
  | nil => simp
  | cons x xs ih =>
    simp only [IndexByte] at h
    by_cases hx : x = c
    · simp [hx] at h
    · simp only [hx, if_false, Option.map_eq_none'] at h
      simp only [List.mem_cons, not_or]
      exact ⟨fun e => hx e.symm, ih h⟩

theorem IndexByte_some {c : Char} {s : List Char} {m : Nat} (h : IndexByte c s = some m) :
    s = s.take m ++ c :: s.drop (m + 1) ∧ c ∉ s.take m ∧
      Count c s = Count c (s.drop (m + 1)) + 1 := by
  induction s generalizing m with
  | nil => simp [IndexByte] at h
  | cons x xs ih =>
    simp only [IndexByte] at h
    by_cases hx : x = c
    · simp only [hx, if_true, Option.some.injEq] at h
      subst h
      simp [hx, Count]
      omega
    · simp only [hx, if_false, Option.map_eq_some'] at h
      obtain ⟨m', hm', rfl⟩ := h
      obtain ⟨h1, h2, h3⟩ := ih hm'
      refine ⟨?_, ?_, ?_⟩
      · simp only [List.take_succ_cons, List.drop_succ_cons, List.cons_append]
        rw [← h1]
      · simp only [List.take_succ_cons, List.mem_cons, not_or]
        exact ⟨fun e => hx e.symm, h2⟩
      · simp only [Count, hx, if_false, List.drop_succ_cons]
        omega

theorem IndexByte_append {c : Char} {a t : List Char} (h : c ∉ a) :
    IndexByte c (a ++ c :: t) = some a.length := by
  induction a with
  | nil => simp [IndexByte]
  | cons x xs ih =>
    simp only [List.mem_cons, not_or] at h
    have hx : ¬ x = c := fun e => h.1 e.symm
    simp [IndexByte, hx, ih h.2]

theorem Count_append {c : Char} {a t : List Char} (h : c ∉ a) :
    Count c (a ++ c :: t) = Count c t + 1 := by
  induction a with
  | nil => simp [Count]; omega
  | cons x xs ih =>
    simp only [List.mem_cons, not_or] at h
    have hx : ¬ x = c := fun e => h.1 e.symm
    simp [Count, hx, ih h.2]

theorem not_mem_of_Count_eq_zero {c : Char} {s : List Char} (h : Count c s = 0) : c ∉ s := by
  induction s with
  | nil => simp
  | cons x xs ih =>
    simp only [Count] at h
    by_cases hx : x = c
    · simp [hx] at h
    · simp only [hx, if_false, Nat.zero_add] at h
      simp only [List.mem_cons, not_or]
      exact ⟨fun e => hx e.symm, ih h⟩

theorem IndexByte_of_not_mem {c : Char} {s : List Char} (h : c ∉ s) : IndexByte c s = none := by
  induction s with
  | nil => rfl
  | cons x xs ih =>
    simp only [List.mem_cons, not_or] at h
    have hx : ¬ x = c := fun e => h.1 e.symm
    simp [IndexByte, hx, ih h.2]

theorem loop_ne_nil (c : Char) (k : Nat) (s : List Char) : genSplit.loop c k s ≠ [] := by
  cases k with
  | zero => simp [genSplit.loop]
  | succ k =>
    simp only [genSplit.loop]
    cases IndexByte c s <;> simp

/-- The split loop, run for at least as many rounds as there are separators,
cuts `s` into separator-free segments that join back to `s`. -/
theorem loop_spec (c : Char) (k : Nat) :
    ∀ s, Count c s ≤ k →
      joinData [c] (genSplit.loop c k s) = s ∧
      (∀ seg ∈ genSplit.loop c k s, c ∉ seg) ∧
      (genSplit.loop c k s).length = Count c s + 1 := by
  induction k with
  | zero =>
    intro s hs
    have h0 : Count c s = 0 := by omega
    refine ⟨rfl, ?_, by simp [genSplit.loop, h0]⟩
    intro seg hseg
    simp only [genSplit.loop, List.mem_singleton] at hseg
    subst hseg
    exact not_mem_of_Count_eq_zero h0
  | succ k ih =>
    intro s hs
    simp only [genSplit.loop]
    cases hi : IndexByte c s with
    | none =>
      have hn := IndexByte_none hi
      simp [joinData, hn, Count_eq_zero hn]
    | some m =>
      obtain ⟨h1, h2, h3⟩ := IndexByte_some hi
      obtain ⟨j1, j2, j3⟩ := ih (s.drop (m + 1)) (by omega)
      simp only
      refine ⟨?_, ?_, ?_⟩
      · obtain ⟨b, rest, hb⟩ := List.exists_cons_of_ne_nil (loop_ne_nil c k (s.drop (m + 1)))
        rw [hb] at j1 ⊢
        simp only [joinData]
        rw [j1]
        simpa using h1.symm
      · intro seg hseg
        simp only [List.mem_cons] at hseg
        rcases hseg with rfl | hseg
        · exact h2
        · exact j2 seg hseg
      · simp [j3, h3]

theorem loop_unique (c : Char) (segs : List (List Char)) :
    ∀ k s, segs ≠ [] → (∀ seg ∈ segs, c ∉ seg) → joinData [c] segs = s → Count c s ≤ k →
      genSplit.loop c k s = segs := by
  induction segs with
  | nil => intro k s h; exact absurd rfl h
  | cons a l ih =>
    intro k s _ hfree hjoin hk
    cases l with
    | nil =>
      simp only [joinData] at hjoin
      subst hjoin
      have ha : c ∉ a := hfree a (by simp)
      cases k with
      | zero => rfl
      | succ k => simp only [genSplit.loop, IndexByte_of_not_mem ha]
    | cons b rest =>
      simp only [joinData] at hjoin
      have ha : c ∉ a := hfree a (by simp)
      have hs : s = a ++ c :: joinData [c] (b :: rest) := by simp [← hjoin]
      have hc := Count_append (t := joinData [c] (b :: rest)) ha
      rw [← hs] at hc
      cases k with
      | zero => omega
      | succ k =>
        have hi := IndexByte_append (t := joinData [c] (b :: rest)) ha
        rw [← hs] at hi
        simp only [genSplit.loop, hi]
        have e1 : s.take a.length = a := by rw [hs]; simp
        have e2 : s.drop (a.length + 1) = joinData [c] (b :: rest) := by rw [hs]; simp
        rw [e1, e2, ih k _ (by simp) (fun seg hseg => hfree seg (by simp [hseg])) rfl (by omega)]

/-- Joining the result of `Split` with "," gives the string back. -/
theorem Join_Split (v : String) : Join (Split v) "," = v := by
  apply String.ext
  rw [Join_data]
  have h := (loop_spec ',' (Count ',' v.data) v.data (Nat.le_refl _)).1
  have e : (Split v).map String.data = genSplit.loop ',' (Count ',' v.data) v.data := by
    simp [Split, Function.comp_def]
  rw [e]
  exact h

/-- No segment of `Split` holds a comma. -/
theorem Split_no_comma (v : String) : ∀ seg ∈ Split v, ',' ∉ seg.data := by
  intro seg hseg
  simp only [Split, List.mem_map] at hseg
  obtain ⟨l, hl, rfl⟩ := hseg
  exact (loop_spec ',' (Count ',' v.data) v.data (Nat.le_refl _)).2.1 l hl

/-- `Split` gives one segment more than there are commas. -/
theorem Split_length (v : String) : (Split v).length = Count ',' v.data + 1 := by
  simp only [Split, List.length_map]
  exact (loop_spec ',' (Count ',' v.data) v.data (Nat.le_refl _)).2.2

/-- `Split` is the only way to cut a string into comma-free segments that join
back to it. -/
theorem Split_unique (v : String) (segs : List String) (hne : segs ≠ [])
    (hfree : ∀ seg ∈ segs, ',' ∉ seg.data) (hjoin : Join segs "," = v) :
    Split v = segs := by
  have hd : joinData [','] (segs.map String.data) = v.data := by
    rw [← hjoin, Join_data]
  have h := loop_unique ',' (segs.map String.data) (Count ',' v.data) v.data
    (by simpa using hne)
    (by
      intro seg hseg
      simp only [List.mem_map] at hseg
      obtain ⟨x, hx, rfl⟩ := hseg
      exact hfree x hx)
    hd (Nat.le_refl _)
  simp only [Split, h, List.map_map]
  have : (String.mk ∘ String.data) = id := by
    funext x
    rfl
  rw [this, List.map_id]

/-! ### `getValue` and `createDropletTemplate` -/

theorem getValue_cases (t : TargetPlugin) (config : Config) (key : String) :
    (∃ v, getValue t config key = (v, true) ∧ isAbsent t config key = false) ∨
    (getValue t config key = ("", false) ∧ isAbsent t config key = true) := by
  unfold getValue isAbsent
  cases h1 : config key with
  | some v => left; exact ⟨v, rfl, by simp⟩
  | none =>
    cases h2 : t.config key with
    | some v => left; exact ⟨v, rfl, by simp⟩
    | none => right; exact ⟨rfl, by simp⟩

theorem getValue_of_absent (t : TargetPlugin) (config : Config) (key : String)
    (h : config key = none ∧ t.config key = none) : getValue t config key = ("", false) := by
  unfold getValue
  rw [h.1, h.2]

theorem isAbsent_iff (t : TargetPlugin) (config : Config) (key : String) :
    isAbsent t config key = true ↔ config key = none ∧ t.config key = none := by
  simp [isAbsent]

/-- The template `createDropletTemplate` builds from resolved values. -/
theorem createDropletTemplate_cases (t : TargetPlugin) (config : Config) :
    (∃ k, firstAbsentKey t config = some k ∧
      createDropletTemplate t config = (none, some (errRequiredParam k))) ∨
    (firstAbsentKey t config = none ∧
      ∃ name region size vpc snapshot,
        getValue t config configKeyName = (name, true) ∧
        getValue t config configKeyRegion = (region, true) ∧
        getValue t config configKeySize = (size, true) ∧
        getValue t config configKeyVpcUUID = (vpc, true) ∧
        getValue t config configKeySnapshotID = (snapshot, true) ∧
        (((ParseInt snapshot 0).2 ≠ none ∧
          createDropletTemplate t config =
            (none, some (errInvalidParam configKeySnapshotID))) ∨
         (∃ id, ParseInt snapshot 0 = (id, none) ∧
          createDropletTemplate t config =
            (some {
              region := region
              size := size
              vpc := vpc
              snapshotID := id
              name := name
              sshKeys :=
                if (getValue t config configKeySshKeys).1.length ≠ 0 then
                  Split (getValue t config configKeySshKeys).1
                else []
              userData := (getValue t config configKeyUserData).1
              tags :=
                if (getValue t config configKeyTags).1.length ≠ 0 then
                  name :: Split (getValue t config configKeyTags).1
                else [name] }, none)))) := by
  rcases getValue_cases t config configKeyName with ⟨name, h1, a1⟩ | ⟨h1, a1⟩
  swap
  · left
    exact ⟨configKeyName, by simp [firstAbsentKey, requiredKeys, a1],
      by simp [createDropletTemplate, h1]⟩
  rcases getValue_cases t config configKeyRegion with ⟨region, h2, a2⟩ | ⟨h2, a2⟩
  swap
  · left
    exact ⟨configKeyRegion, by simp [firstAbsentKey, requiredKeys, a1, a2],
      by simp [createDropletTemplate, h1, h2]⟩
  rcases getValue_cases t config configKeySize with ⟨size, h3, a3⟩ | ⟨h3, a3⟩
  swap
  · left
    exact ⟨configKeySize, by simp [firstAbsentKey, requiredKeys, a1, a2, a3],
      by simp [createDropletTemplate, h1, h2, h3]⟩
  rcases getValue_cases t config configKeyVpcUUID with ⟨vpc, h4, a4⟩ | ⟨h4, a4⟩
  swap
  · left
    exact ⟨configKeyVpcUUID, by simp [firstAbsentKey, requiredKeys, a1, a2, a3, a4],
      by simp [createDropletTemplate, h1, h2, h3, h4]⟩
  rcases getValue_cases t config configKeySnapshotID with ⟨snapshot, h5, a5⟩ | ⟨h5, a5⟩
  swap
  · left
    exact ⟨configKeySnapshotID, by simp [firstAbsentKey, requiredKeys, a1, a2, a3, a4, a5],
      by simp [createDropletTemplate, h1, h2, h3, h4, h5]⟩
  right
  refine ⟨by simp [firstAbsentKey, requiredKeys, a1, a2, a3, a4, a5],
    name, region, size, vpc, snapshot, h1, h2, h3, h4, h5, ?_⟩
  rcases hp : ParseInt snapshot 0 with ⟨id, e⟩
  cases e with
  | some e =>
    left
    exact ⟨by simp, by simp [createDropletTemplate, h1, h2, h3, h4, h5, hp]⟩
  | none =>
    right
    refine ⟨id, rfl, ?_⟩
    simp only [createDropletTemplate, h1, h2, h3, h4, h5, hp]
    simp

/-- C1, as stated, fails: for `observed = 2` and `desired = -2^63` the desired
count is the smaller one and the direction is "in", but the 64-bit subtraction
`observed - desired` wraps, so the magnitude returned is
`-9223372036854775806` and not the difference `2^63 + 2`. -/
theorem calculateDirection_magnitude_overflow :
    isInt64 2 ∧ isInt64 (-(2 ^ 63)) ∧ (-(2 ^ 63) : Int) < 2 ∧
    calculateDirection 2 (-(2 ^ 63)) = (-9223372036854775806, "in") ∧
    calculateDirection 2 (-(2 ^ 63)) ≠ ((2 : Int) - (-(2 ^ 63)), "in") := by
  refine ⟨by decide, by decide, by decide, by decide, by decide⟩

/-- C1, amended: for int64 values `observed` and `desired`, the direction is
"out" exactly when `desired > observed` and "in" exactly when
`desired < observed`, and the no-op result (magnitude 0, empty direction) is
returned exactly when the two are equal. The result is direction "out" with
magnitude `desired - observed` exactly when `desired > observed` and that
difference is below `2^63`, and direction "in" with magnitude
`observed - desired` exactly when `desired < observed` and that difference is
below `2^63`; both bounds hold whenever the two values are non-negative. -/
theorem calculateDirection_spec (observed desired : Int)
    (ho : isInt64 observed) (hd : isInt64 desired) :
    ((calculateDirection observed desired).2 = "out" ↔ desired > observed) ∧
    ((calculateDirection observed desired).2 = "in" ↔ desired < observed) ∧
    (calculateDirection observed desired = (0, "") ↔ desired = observed) ∧
    (calculateDirection observed desired = (desired - observed, "out")
        ↔ desired > observed ∧ desired - observed < 2 ^ 63) ∧
    (calculateDirection observed desired = (observed - desired, "in")
        ↔ desired < observed ∧ observed - desired < 2 ^ 63) ∧
    (0 ≤ observed → 0 ≤ desired →
      (calculateDirection observed desired = (desired - observed, "out")
        ↔ desired > observed) ∧
      (calculateDirection observed desired = (observed - desired, "in")
        ↔ desired < observed)) := by
  unfold isInt64 at ho hd
  have hio : ¬ ("in" = "out") := by decide
  have hoi : ¬ ("out" = "in") := by decide
  have hi0 : ¬ ("in" = "") := by decide
  have ho0 : ¬ ("out" = "") := by decide
  have h0o : ¬ ("" = "out") := by decide
  have h0i : ¬ ("" = "in") := by decide
  unfold calculateDirection subInt64 wrapInt64
  rcases lt_trichotomy desired observed with h | h | h
  · have h1 : ¬ desired > observed := by omega
    simp only [h, h1, if_true, Prod.mk.injEq, hio, hi0, and_false, and_true, false_and,
      true_and, iff_false, iff_true, not_false_eq_true]
    refine ⟨⟨fun hf => hf.elim, fun he => by omega⟩, by omega, fun _ _ => by omega⟩
  · subst h
    have h1 : ¬ desired < desired := by omega
    simp only [h1, gt_iff_lt, if_false, Prod.mk.injEq, h0o, h0i, and_false, and_true,
      false_and, iff_false, iff_true, not_false_eq_true, true_and, implies_true]
  · have h1 : ¬ desired < observed := by omega
    simp only [h, h1, if_true, if_false, gt_iff_lt, Prod.mk.injEq, hoi, ho0, and_false,
      and_true, false_and, true_and, iff_false, iff_true, not_false_eq_true]
    refine ⟨⟨fun hf => hf.elim, fun he => by omega⟩, by omega, fun _ _ => by omega⟩

theorem calculateDirection_spec_witness :
    isInt64 3 ∧ isInt64 5 ∧
    calculateDirection 3 5 = (5 - 3, "out") ∧ calculateDirection 5 3 = (5 - 3, "in") :=
  ⟨by decide, by decide,
   (calculateDirection_spec 3 5 (by decide) (by decide)).2.2.2.1.2 (by decide),
   (calculateDirection_spec 5 3 (by decide) (by decide)).2.2.2.2.1.2 (by decide)⟩

/-- C10, as stated, fails: for `observed = -2^63` and `desired = 2^63 - 1` the
64-bit subtraction `desired - observed` wraps to `-1`, so the returned
magnitude has absolute value `1`, while `|observed - desired| = 2^64 - 1`. -/
theorem calculateDirection_abs_overflow :
    isInt64 (-(2 ^ 63)) ∧ isInt64 (2 ^ 63 - 1) ∧
    calculateDirection (-(2 ^ 63)) (2 ^ 63 - 1) = (-1, "out") ∧
    |(calculateDirection (-(2 ^ 63)) (2 ^ 63 - 1)).1| ≠ |(-(2 ^ 63) : Int) - (2 ^ 63 - 1)| := by
  refine ⟨by decide, by decide, by decide, by decide⟩

/-- C10, amended: for int64 values `observed` and `desired`, the magnitude the
64-bit subtraction produces satisfies `|magnitude| = |observed - desired|`
exactly when the mathematical difference has `|observed - desired| ≤ 2^63`;
this is the case whenever both values are non-negative. -/
theorem calculateDirection_abs (observed desired : Int)
    (ho : isInt64 observed) (hd : isInt64 desired) :
    (|(calculateDirection observed desired).1| = |observed - desired|
        ↔ |observed - desired| ≤ 2 ^ 63) ∧
    (0 ≤ observed → 0 ≤ desired →
        |(calculateDirection observed desired).1| = |observed - desired|) := by
  unfold isInt64 at ho hd
  unfold calculateDirection subInt64 wrapInt64
  simp only [abs_eq_max_neg, max_def]
  split_ifs <;> simp only [] <;> constructor <;> omega

theorem calculateDirection_abs_witness :
    isInt64 5 ∧ isInt64 2 ∧
    (|(calculateDirection 5 2).1| = |(5 : Int) - 2| ↔ |(5 : Int) - 2| ≤ 2 ^ 63) ∧
    |(calculateDirection 5 2).1| = |(5 : Int) - 2| :=
  ⟨by decide, by decide, (calculateDirection_abs 5 2 (by decide) (by decide)).1,
    (calculateDirection_abs 5 2 (by decide) (by decide)).2 (by decide) (by decide)⟩


/-! ### Template builder -/

/-- A template is returned exactly when no error is: `Scale` never reads a nil
template. -/
theorem createDropletTemplate_nil_iff (t : TargetPlugin) (config : Config) :
    (createDropletTemplate t config).1 = none ↔ (createDropletTemplate t config).2 ≠ none := by
  rcases createDropletTemplate_cases t config with
    ⟨k, _, hc⟩ | ⟨_, name, region, size, vpc, snapshot, _, _, _, _, _, ⟨_, hc⟩ | ⟨id, _, hc⟩⟩ <;>
  · rw [hc]; simp

/-- The call `Scale` makes never panics. -/
theorem Scale_ne_panic (x : Collaborators) (t : TargetPlugin) (action : ScalingAction)
    (config : Config) : (Scale x t action config).1 ≠ .panic := by
  unfold Scale
  split_ifs
  · simp
  · have hnil := createDropletTemplate_nil_iff t config
    rcases hc : createDropletTemplate t config with ⟨_ | tmpl, _ | err⟩
    · rw [hc] at hnil; simp at hnil
    · simp
    · simp only
      rcases x.getDroplets tmpl with ⟨droplets, _ | err⟩
      · simp only
        split_ifs
        · cases x.scaleIn droplets action.Count
            (calculateDirection (↑droplets.length) action.Count).1 tmpl config <;> simp
        · cases x.scaleOut action.Count
            (calculateDirection (↑droplets.length) action.Count).1 tmpl config <;> simp
        · simp
      · simp
    · simp

/-- C8: `getValue` returns the per-call value whenever the key is present in
the per-call config (also when that value is empty and the stored config holds
another one), the stored value when the key is only in the stored config, and
the pair of the empty string and `false` exactly when the key is in neither. -/
theorem getValue_spec (t : TargetPlugin) (config : Config) (key : String) :
    (∀ v, config key = some v → getValue t config key = (v, true)) ∧
    (∀ v, config key = none → t.config key = some v → getValue t config key = (v, true)) ∧
    (getValue t config key = ("", false) ↔ config key = none ∧ t.config key = none) ∧
    ((getValue t config key).2 = false ↔ config key = none ∧ t.config key = none) := by
  unfold getValue
  cases h1 : config key with
  | some v => simp
  | none =>
    cases h2 : t.config key with
    | some v => simp
    | none => simp

theorem getValue_spec_witness :
    getValue ⟨fun k => if k = "name" then some "stored" else none⟩
        (fun k => if k = "name" then some "" else none) "name" = ("", true) ∧
    getValue ⟨fun k => if k = "name" then some "stored" else none⟩
        (fun _ => none) "name" = ("stored", true) :=
  ⟨(getValue_spec ⟨fun k => if k = "name" then some "stored" else none⟩
      (fun k => if k = "name" then some "" else none) "name").1 "" (by decide),
   (getValue_spec ⟨fun k => if k = "name" then some "stored" else none⟩
      (fun _ => none) "name").2.1 "stored" (by decide) (by decide)⟩

/-- C4: when one of the five required keys is absent from both mappings,
`createDropletTemplate` returns no template together with the error
"required config param <key> not found", where the key named is the first one,
in the order name, region, size, vpc_uuid, snapshot_id, that is absent from
both mappings; and whenever an error is returned, no template comes with it. -/
theorem createDropletTemplate_missing (t : TargetPlugin) (config : Config) :
    ((∃ k ∈ requiredKeys, config k = none ∧ t.config k = none) →
      ∃ k, firstAbsentKey t config = some k ∧ k ∈ requiredKeys ∧
        config k = none ∧ t.config k = none ∧
        createDropletTemplate t config =
          (none, some (.errorString ("required config param " ++ k ++ " not found")))) ∧
    ((createDropletTemplate t config).2 ≠ none → (createDropletTemplate t config).1 = none) := by
  constructor
  · rintro ⟨k0, hk0, habs⟩
    rcases createDropletTemplate_cases t config with ⟨k, hk, hc⟩ | ⟨hnone, _⟩
    · have hmem := List.mem_of_find?_eq_some hk
      have hp := List.find?_some hk
      rw [isAbsent_iff] at hp
      exact ⟨k, hk, hmem, hp.1, hp.2, hc⟩
    · exfalso
      have := List.find?_eq_none.1 hnone k0 hk0
      exact this ((isAbsent_iff t config k0).2 habs)
  · rcases createDropletTemplate_cases t config with
      ⟨k, _, hc⟩ | ⟨_, name, region, size, vpc, snapshot, _, _, _, _, _, ⟨_, hc⟩ | ⟨id, _, hc⟩⟩
    · rw [hc]; simp
    · rw [hc]; simp
    · rw [hc]; simp

theorem createDropletTemplate_missing_witness :
    createDropletTemplate ⟨fun k => if k = "name" then some "web" else none⟩
      (fun k => if k = "region" then some "nyc3" else
        if k = "snapshot_id" then some "12" else none) =
    (none, some (.errorString "required config param size not found")) := by
  obtain ⟨k, hk, _, _, _, hc⟩ :=
    (createDropletTemplate_missing ⟨fun k => if k = "name" then some "web" else none⟩
      (fun k => if k = "region" then some "nyc3" else
        if k = "snapshot_id" then some "12" else none)).1
      ⟨"size", by decide, by decide, by decide⟩
  have hs : firstAbsentKey ⟨fun k => if k = "name" then some "web" else none⟩
      (fun k => if k = "region" then some "nyc3" else
        if k = "snapshot_id" then some "12" else none) = some "size" := by decide
  rw [hs] at hk
  cases hk
  exact hc


theorem length_ne_zero_iff (v : String) : v.length ≠ 0 ↔ v ≠ "" := by
  constructor
  · rintro h rfl
    exact h rfl
  · intro h hl
    apply h
    apply String.ext
    exact List.length_eq_zero.1 hl

theorem errInvalid_ne_errRequired (k : String) :
    GoError.errorString "invalid value for config param snapshot_id" ≠
      .errorString ("required config param " ++ k ++ " not found") := by
  intro h
  have h1 := congrArg (fun e => e.Error.data.head?) h
  simp [GoError.Error, String.data_append] at h1

/-- C5: when name, region, size, vpc_uuid and snapshot_id are all present,
`createDropletTemplate` fails exactly when the snapshot_id value is not a
valid base-10 integer in the range of the platform `int`; it then returns no
template and the error "invalid value for config param snapshot_id", which is
none of the "required config param <key> not found" errors; otherwise it
returns a template whose `snapshotID` is the integer the value denotes. -/
theorem createDropletTemplate_snapshot (t : TargetPlugin) (config : Config)
    (hall : ∀ k ∈ requiredKeys, ¬ (config k = none ∧ t.config k = none)) :
    ((createDropletTemplate t config).2 ≠ none ↔
      ¬ validInt (getValue t config configKeySnapshotID).1) ∧
    (¬ validInt (getValue t config configKeySnapshotID).1 →
      createDropletTemplate t config =
        (none, some (.errorString "invalid value for config param snapshot_id"))) ∧
    (∀ k, GoError.errorString "invalid value for config param snapshot_id" ≠
      .errorString ("required config param " ++ k ++ " not found")) ∧
    (∀ v, decimalInt (getValue t config configKeySnapshotID).1 = some v → isInt64 v →
      ∃ tmpl, createDropletTemplate t config = (some tmpl, none) ∧ tmpl.snapshotID = v) := by
  rcases createDropletTemplate_cases t config with
    ⟨k, hk, _⟩ | ⟨_, name, region, size, vpc, snapshot, _, _, _, _, h5, hc⟩
  · exfalso
    have hp := List.find?_some hk
    rw [isAbsent_iff] at hp
    exact hall k (List.mem_of_find?_eq_some hk) hp
  · rw [h5]
    simp only
    refine ⟨?_, ?_, errInvalid_ne_errRequired, ?_⟩
    · rcases hc with ⟨he, hc⟩ | ⟨id, hid, hc⟩
      · rw [hc]
        simp only [ne_eq, reduceCtorEq, not_false_eq_true, true_iff]
        rintro ⟨v, hv, hi⟩
        rcases ParseInt_spec snapshot with ⟨v', _, _, hp⟩ | ⟨hbad, _⟩
        · rw [hp] at he
          exact he rfl
        · exact hbad v hv hi
      · rw [hc]
        simp only [ne_eq, not_true_eq_false, false_iff, not_not]
        rcases ParseInt_spec snapshot with ⟨v', hv, hi, _⟩ | ⟨_, hne⟩
        · exact ⟨v', hv, hi⟩
        · rw [hid] at hne
          exact absurd rfl hne
    · intro hbad
      rcases hc with ⟨_, hc⟩ | ⟨id, hid, _⟩
      · exact hc
      · exfalso
        rcases ParseInt_spec snapshot with ⟨v', hv, hi, _⟩ | ⟨_, hne⟩
        · exact hbad ⟨v', hv, hi⟩
        · rw [hid] at hne
          exact hne rfl
    · intro v hv hi
      rcases ParseInt_spec snapshot with ⟨v', hv', _, hp⟩ | ⟨hbad, _⟩
      · rw [hv] at hv'
        cases hv'
        rcases hc with ⟨he, _⟩ | ⟨id, hid, hc⟩
        · rw [hp] at he
          exact absurd rfl he
        · rw [hp] at hid
          cases hid
          exact ⟨_, hc, rfl⟩
      · exact absurd hi (hbad v hv)


theorem createDropletTemplate_snapshot_witness :
    createDropletTemplate sampleStored (sampleConfig "12x" none none) =
      (none, some (.errorString "invalid value for config param snapshot_id")) ∧
    ∃ tmpl, createDropletTemplate sampleStored (sampleConfig "-12" none none) = (some tmpl, none) ∧
      tmpl.snapshotID = -12 :=
  ⟨(createDropletTemplate_snapshot sampleStored (sampleConfig "12x" none none)
      (by decide)).2.1 (by
        rintro ⟨v, hv, _⟩
        have h : decimalInt (getValue sampleStored (sampleConfig "12x" none none)
          configKeySnapshotID).1 = none := by decide
        rw [h] at hv
        cases hv),
   (createDropletTemplate_snapshot sampleStored (sampleConfig "-12" none none)
      (by decide)).2.2.2 (-12) (by decide) (by decide)⟩

/-- C6: on success the tag list starts with the resolved name, followed by the
comma-separated segments of the resolved tags value in their order, untrimmed
and with empty segments kept: the segments are comma-free and join back, with
",", to the value, which determines them. The tag list is `[name]` when the
tags value is absent or empty, and tags "a,b" gives `[name, "a", "b"]`. -/
theorem createDropletTemplate_tags (t : TargetPlugin) (config : Config) (tmpl : dropletTemplate)
    (h : createDropletTemplate t config = (some tmpl, none)) :
    tmpl.name = (getValue t config configKeyName).1 ∧
    tmpl.tags.head? = some tmpl.name ∧
    ((config configKeyTags = none ∧ t.config configKeyTags = none) → tmpl.tags = [tmpl.name]) ∧
    ((getValue t config configKeyTags).1 = "" → tmpl.tags = [tmpl.name]) ∧
    ((getValue t config configKeyTags).1 ≠ "" →
      tmpl.tags = tmpl.name :: Split (getValue t config configKeyTags).1 ∧
      Join tmpl.tags.tail "," = (getValue t config configKeyTags).1 ∧
      (∀ seg ∈ tmpl.tags.tail, ',' ∉ seg.data) ∧
      (∀ segs, segs ≠ [] → (∀ seg ∈ segs, ',' ∉ seg.data) →
        Join segs "," = (getValue t config configKeyTags).1 → tmpl.tags = tmpl.name :: segs)) ∧
    ((getValue t config configKeyTags).1 = "a,b" → tmpl.tags = [tmpl.name, "a", "b"]) ∧
    ((getValue t config configKeyTags).1 = " a,,b " →
      tmpl.tags = [tmpl.name, " a", "", "b "]) := by
  rcases createDropletTemplate_cases t config with
    ⟨k, _, hc⟩ | ⟨_, name, region, size, vpc, snapshot, h1, _, _, _, _, ⟨_, hc⟩ | ⟨id, _, hc⟩⟩
  · rw [hc] at h; simp at h
  · rw [hc] at h; simp at h
  · have e := Option.some.inj (congrArg Prod.fst (hc.symm.trans h))
    have hname : tmpl.name = name := by rw [← e]
    have htags : tmpl.tags =
        if (getValue t config configKeyTags).1.length ≠ 0 then
          name :: Split (getValue t config configKeyTags).1
        else [name] := by rw [← e]
    have habs : (config configKeyTags = none ∧ t.config configKeyTags = none) →
        (getValue t config configKeyTags).1 = "" := by
      intro ha
      rw [getValue_of_absent t config configKeyTags ha]
    rw [hname, h1]
    by_cases hv : (getValue t config configKeyTags).1 = ""
    · have hl : ¬ (getValue t config configKeyTags).1.length ≠ 0 := by
        rw [length_ne_zero_iff]; exact not_not.2 hv
      rw [if_neg hl] at htags
      refine ⟨rfl, by rw [htags]; rfl, fun _ => htags, fun _ => htags,
        fun hne => absurd hv hne, ?_, ?_⟩
      · intro hab; rw [hab] at hv; exact absurd hv (by decide)
      · intro hab; rw [hab] at hv; exact absurd hv (by decide)
    · have hl : (getValue t config configKeyTags).1.length ≠ 0 :=
        (length_ne_zero_iff _).2 hv
      rw [if_pos hl] at htags
      refine ⟨rfl, by rw [htags]; rfl, fun ha => absurd (habs ha) hv,
        fun he => absurd he hv, fun _ => ?_, ?_, ?_⟩
      · refine ⟨htags, ?_, ?_, ?_⟩
        · rw [htags]; exact Join_Split _
        · rw [htags]; exact Split_no_comma _
        · intro segs hne hfree hjoin
          rw [htags, Split_unique _ segs hne hfree hjoin]
      · intro hab
        have e2 : Split "a,b" = ["a", "b"] := by decide
        rw [htags, hab, e2]
      · intro hab
        have e2 : Split " a,,b " = [" a", "", "b "] := by decide
        rw [htags, hab, e2]

theorem createDropletTemplate_tags_witness :
    createDropletTemplate sampleStored (sampleConfig "12" (some "a,b") none) =
      (some (sampleTemplate 12 [] ["web", "a", "b"]), none) ∧
    (sampleTemplate 12 [] ["web", "a", "b"]).tags =
      [(sampleTemplate 12 [] ["web", "a", "b"]).name, "a", "b"] :=
  ⟨by decide,
   (createDropletTemplate_tags sampleStored (sampleConfig "12" (some "a,b") none)
      (sampleTemplate 12 [] ["web", "a", "b"]) (by decide)).2.2.2.2.2.1 (by decide)⟩


/-- C7: on success the ssh key list is empty (not the list holding one empty
string) when the resolved ssh_keys value is absent or empty; otherwise it is
the comma-split of the value, whose join with "," is the value again. So the
key list is empty exactly when ssh_keys is absent or empty. -/
theorem createDropletTemplate_sshKeys (t : TargetPlugin) (config : Config)
    (tmpl : dropletTemplate) (h : createDropletTemplate t config = (some tmpl, none)) :
    ((config configKeySshKeys = none ∧ t.config configKeySshKeys = none) →
      tmpl.sshKeys = []) ∧
    ((getValue t config configKeySshKeys).1 = "" →
      tmpl.sshKeys = [] ∧ tmpl.sshKeys.length = 0 ∧ tmpl.sshKeys ≠ [""]) ∧
    ((getValue t config configKeySshKeys).1 ≠ "" →
      tmpl.sshKeys = Split (getValue t config configKeySshKeys).1 ∧
      Join tmpl.sshKeys "," = (getValue t config configKeySshKeys).1 ∧
      (∀ seg ∈ tmpl.sshKeys, ',' ∉ seg.data) ∧
      (∀ segs, segs ≠ [] → (∀ seg ∈ segs, ',' ∉ seg.data) →
        Join segs "," = (getValue t config configKeySshKeys).1 → tmpl.sshKeys = segs)) ∧
    (tmpl.sshKeys = [] ↔
      ((config configKeySshKeys = none ∧ t.config configKeySshKeys = none) ∨
        (getValue t config configKeySshKeys).1 = "")) := by
  rcases createDropletTemplate_cases t config with
    ⟨k, _, hc⟩ | ⟨_, name, region, size, vpc, snapshot, _, _, _, _, _, ⟨_, hc⟩ | ⟨id, _, hc⟩⟩
  · rw [hc] at h; simp at h
  · rw [hc] at h; simp at h
  · have e := Option.some.inj (congrArg Prod.fst (hc.symm.trans h))
    have hkeys : tmpl.sshKeys =
        if (getValue t config configKeySshKeys).1.length ≠ 0 then
          Split (getValue t config configKeySshKeys).1
        else [] := by rw [← e]
    have habs : (config configKeySshKeys = none ∧ t.config configKeySshKeys = none) →
        (getValue t config configKeySshKeys).1 = "" := by
      intro ha
      rw [getValue_of_absent t config configKeySshKeys ha]
    by_cases hv : (getValue t config configKeySshKeys).1 = ""
    · have hl : ¬ (getValue t config configKeySshKeys).1.length ≠ 0 := by
        rw [length_ne_zero_iff]; exact not_not.2 hv
      rw [if_neg hl] at hkeys
      refine ⟨fun _ => hkeys, fun _ => ⟨hkeys, by rw [hkeys]; rfl, by rw [hkeys]; simp⟩,
        fun hne => absurd hv hne, fun _ => Or.inr hv, fun _ => hkeys⟩
    · have hl : (getValue t config configKeySshKeys).1.length ≠ 0 :=
        (length_ne_zero_iff _).2 hv
      rw [if_pos hl] at hkeys
      have hne : tmpl.sshKeys ≠ [] := by
        intro h0
        have := Split_length (getValue t config configKeySshKeys).1
        rw [← hkeys, h0] at this
        simp at this
      refine ⟨fun ha => absurd (habs ha) hv, fun he => absurd he hv, fun _ => ?_, ?_⟩
      · refine ⟨hkeys, ?_, ?_, ?_⟩
        · rw [hkeys]; exact Join_Split _
        · rw [hkeys]; exact Split_no_comma _
        · intro segs hne hfree hjoin
          rw [hkeys, Split_unique _ segs hne hfree hjoin]
      · constructor
        · intro h0; exact absurd h0 hne
        · rintro (ha | he)
          · exact absurd (habs ha) hv
          · exact absurd he hv

theorem createDropletTemplate_sshKeys_witness :
    createDropletTemplate sampleStored (sampleConfig "12" none (some "")) =
      (some (sampleTemplate 12 [] ["web"]), none) ∧
    (sampleTemplate 12 [] ["web"]).sshKeys = [] ∧
    (sampleTemplate 12 [] ["web"]).sshKeys.length = 0 ∧
    (sampleTemplate 12 [] ["web"]).sshKeys ≠ [""] :=
  ⟨by decide,
   (createDropletTemplate_sshKeys sampleStored (sampleConfig "12" none (some ""))
      (sampleTemplate 12 [] ["web"]) (by decide)).2.1 (by decide)⟩

/-! ### Scaling director -/

/-- A call that is not a dry run builds the template: the calls of `Scale` are
recorded. -/
theorem Scale_calls_ne_nil (x : Collaborators) (t : TargetPlugin) (action : ScalingAction)
    (config : Config) (h : action.Count ≠ x.StrategyActionMetaValueDryRunCount) :
    (Scale x t action config).2.head? = some .createDropletTemplate := by
  unfold Scale
  rw [if_neg h]
  rcases createDropletTemplate t config with ⟨_ | tmpl, _ | err⟩
  · rfl
  · rfl
  · simp only
    rcases x.getDroplets tmpl with ⟨droplets, _ | err⟩
    · simp only
      split_ifs
      · cases x.scaleIn droplets action.Count
          (calculateDirection (↑droplets.length) action.Count).1 tmpl config <;> rfl
      · cases x.scaleOut action.Count
          (calculateDirection (↑droplets.length) action.Count).1 tmpl config <;> rfl
      · rfl
    · rfl
  · rfl

/-- C2: when the count of the action is the dry-run sentinel, `Scale` returns
nil and makes no call at all, whatever the per-call and stored configs hold:
the template is not built, no listing is issued and no executor runs. -/
theorem Scale_dry_run (x : Collaborators) (t : TargetPlugin) (action : ScalingAction)
    (config : Config) (h : action.Count = x.StrategyActionMetaValueDryRunCount) :
    Scale x t action config = (.returned none, []) := by
  unfold Scale
  rw [if_pos h]

theorem Scale_dry_run_witness :
    Scale (sampleCollaborators [⟨1⟩, ⟨2⟩] (some (.errorString "in")) (some (.errorString "out")))
      ⟨fun _ => none⟩ ⟨-1⟩ (fun _ => none) = (.returned none, []) :=
  Scale_dry_run _ _ _ _ (by decide)


/-- C9, as stated, fails: with three droplets listed and a desired count of 5,
`scaleOut` runs; when it fails with a provider error response, `Scale`
returns an error with the message "failed to perform scaling action: "
followed by the cause's message, but unwrapping it gives nil, not the cause,
and no error response can be found in its chain. -/
theorem Scale_error_not_chained :
    (Scale (sampleCollaborators [⟨1⟩, ⟨2⟩, ⟨3⟩] none
        (some (.errorResponse (some 500) "POST /v2/droplets: 500 server error")))
      sampleStored ⟨5⟩ (sampleConfig "12" none none)).1 =
      .returned (some (.errorString
        "failed to perform scaling action: POST /v2/droplets: 500 server error")) ∧
    (GoError.errorString
        "failed to perform scaling action: POST /v2/droplets: 500 server error").Unwrap ≠
      some (.errorResponse (some 500) "POST /v2/droplets: 500 server error") ∧
    (GoError.errorString
        "failed to perform scaling action: POST /v2/droplets: 500 server error").Unwrap = none ∧
    (GoError.errorString
        "failed to perform scaling action: POST /v2/droplets: 500 server error").AsErrorResponse
      = none ∧
    (GoError.errorResponse (some 500) "POST /v2/droplets: 500 server error").AsErrorResponse
      = some (some 500) := by
  refine ⟨by decide, by decide, by decide, by decide, by decide⟩

/-- C9, amended: in a call that is not a dry run, when the executor that is
dispatched (`scaleIn` or `scaleOut`) returns an error `e`, `Scale` returns an
error whose message is "failed to perform scaling action: " followed by the
message of `e`; the cause is kept as text only: the returned error has no
cause to unwrap. -/
theorem Scale_error_message (x : Collaborators) (t : TargetPlugin) (action : ScalingAction)
    (config : Config) (tmpl : dropletTemplate) (droplets : List Droplet) (e : GoError)
    (hdry : action.Count ≠ x.StrategyActionMetaValueDryRunCount)
    (htmpl : createDropletTemplate t config = (some tmpl, none))
    (hlist : x.getDroplets tmpl = (droplets, none))
    (hexec :
      (action.Count < droplets.length ∧
        x.scaleIn droplets action.Count (subInt64 droplets.length action.Count) tmpl config
          = some e) ∨
      (action.Count > droplets.length ∧
        x.scaleOut action.Count (subInt64 action.Count droplets.length) tmpl config
          = some e)) :
    ∃ r, (Scale x t action config).1 = .returned (some r) ∧
      r.Error = "failed to perform scaling action: " ++ e.Error ∧
      r.Unwrap = none := by
  refine ⟨.errorString ("failed to perform scaling action: " ++ e.Error), ?_, rfl, rfl⟩
  unfold Scale
  rw [if_neg hdry, htmpl]
  simp only [hlist]
  rcases hexec with ⟨hlt, he⟩ | ⟨hgt, he⟩
  · simp only [calculateDirection, hlt, if_true, he, Errorf_v]
  · have hnlt : ¬ action.Count < droplets.length := by omega
    have hne : ¬ ("out" = "in") := by decide
    simp only [calculateDirection, hnlt, if_false, hgt, if_true, hne, he, Errorf_v]

theorem Scale_error_message_witness :
    ∃ r, (Scale (sampleCollaborators [⟨1⟩, ⟨2⟩, ⟨3⟩] (some (.errorString "drain failed")) none)
        sampleStored ⟨1⟩ (sampleConfig "12" none none)).1 = .returned (some r) ∧
      r.Error = "failed to perform scaling action: " ++
        (GoError.errorString "drain failed").Error ∧
      r.Unwrap = none :=
  Scale_error_message (sampleCollaborators [⟨1⟩, ⟨2⟩, ⟨3⟩] (some (.errorString "drain failed")) none)
    sampleStored ⟨1⟩ (sampleConfig "12" none none) (sampleTemplate 12 [] ["web"])
    [⟨1⟩, ⟨2⟩, ⟨3⟩] (.errorString "drain failed")
    (by decide) (by decide) rfl (Or.inl ⟨by decide, rfl⟩)

/-! ### Retirement sequence -/

/-- C3: `shutdownDroplet` returns nil exactly when the power-off call succeeded
and the delete call succeeded or failed with a provider error response whose
HTTP status is 404. The outcome of the wait for state "off" never changes the
result, and after a power-off that succeeded the delete call is issued, last
of the provider calls, also when the wait timed out. -/
theorem shutdownDroplet_spec (dropletId : Int) (client : Client) :
    (∀ wait, ((shutdownDroplet wait dropletId client).1 = .returned none ↔
      (client.PowerOff dropletId = none ∧
        (client.Delete dropletId = none ∨
          ∃ err, client.Delete dropletId = some err ∧
            err.AsErrorResponse = some (some 404))))) ∧
    (∀ wait wait', (shutdownDroplet wait dropletId client).1 =
      (shutdownDroplet wait' dropletId client).1) ∧
    (∀ wait, client.PowerOff dropletId = none →
      .Delete dropletId ∈ (shutdownDroplet wait dropletId client).2 ∧
      ∀ timeout, wait "off" dropletId (5 * Minute) = some timeout →
        ∃ rest, (shutdownDroplet wait dropletId client).2 =
          [.logDebug "Gracefully shutting down droplet...", .PowerOff dropletId,
            .waitForDropletState "off" dropletId (5 * Minute),
            .logWarn "Timeout while waiting to for droplet to become 'off'",
            .logDebug "Deleting Droplet...", .Delete dropletId] ++ rest) ∧
    (∀ wait err, client.PowerOff dropletId = some err →
      .Delete dropletId ∉ (shutdownDroplet wait dropletId client).2) := by
  refine ⟨?_, ?_, ?_, ?_⟩
  · intro wait
    unfold shutdownDroplet
    cases hp : client.PowerOff dropletId with
    | some err => simp
    | none =>
      cases hd : client.Delete dropletId with
      | none => simp
      | some err =>
        simp only [true_and, reduceCtorEq, Option.some.injEq, false_or, exists_eq_left']
        rcases ha : err.AsErrorResponse with _ | _ | StatusCode
        · simp
        · simp
        · by_cases hs : StatusCode = StatusNotFound
          · simp [hs, StatusNotFound]
          · simp only [hs, if_false]
            simp only [StatusNotFound] at hs
            simp [hs]
  · intro wait wait'
    unfold shutdownDroplet
    cases hp : client.PowerOff dropletId with
    | some err => rfl
    | none =>
      cases hd : client.Delete dropletId with
      | none => rfl
      | some err =>
        simp only
        rcases ha : err.AsErrorResponse with _ | _ | StatusCode
        · rfl
        · rfl
        · by_cases hs : StatusCode = StatusNotFound <;> simp [hs]
  · intro wait hp
    unfold shutdownDroplet
    rw [hp]
    constructor
    · cases hw : wait "off" dropletId (5 * Minute) <;>
      cases hd : client.Delete dropletId with
      | none => simp
      | some err =>
        simp only
        rcases ha : err.AsErrorResponse with _ | _ | StatusCode
        · simp
        · simp
        · by_cases hs : StatusCode = StatusNotFound <;> simp [hs]
    · intro timeout hw
      rw [hw]
      cases hd : client.Delete dropletId with
      | none => exact ⟨[], by simp⟩
      | some err =>
        simp only
        rcases ha : err.AsErrorResponse with _ | _ | StatusCode
        · exact ⟨[], by simp⟩
        · exact ⟨[], by simp⟩
        · by_cases hs : StatusCode = StatusNotFound
          · exact ⟨[.logWarn
              "encountered 404 while deleting droplet. assuming it was already deleted an continuing"],
              by simp [hs]⟩
          · exact ⟨[], by simp [hs]⟩
  · intro wait err hp
    unfold shutdownDroplet
    rw [hp]
    simp

theorem shutdownDroplet_spec_witness :
    (sampleClient none (some (.errorResponse (some 404) "DELETE /v2/droplets/7: 404 not found"))).PowerOff 7
      = none ∧
    (fun (_ : String) (_ _ : Int) => some (GoError.errorString "timeout")) "off" 7 (5 * Minute)
      = some (.errorString "timeout") ∧
    ShutdownCall.Delete 7 ∈ (shutdownDroplet (fun _ _ _ => some (.errorString "timeout")) 7
      (sampleClient none
        (some (.errorResponse (some 404) "DELETE /v2/droplets/7: 404 not found")))).2 ∧
    (shutdownDroplet (fun _ _ _ => some (.errorString "timeout")) 7
      (sampleClient none
        (some (.errorResponse (some 404) "DELETE /v2/droplets/7: 404 not found")))).1 =
      .returned none :=
  ⟨rfl, rfl,
   ((shutdownDroplet_spec 7 (sampleClient none
      (some (.errorResponse (some 404) "DELETE /v2/droplets/7: 404 not found")))).2.2.1
      (fun _ _ _ => some (.errorString "timeout")) rfl).1,
   ((shutdownDroplet_spec 7 (sampleClient none
      (some (.errorResponse (some 404) "DELETE /v2/droplets/7: 404 not found")))).1
      (fun _ _ _ => some (.errorString "timeout"))).2
      ⟨rfl, Or.inr ⟨_, rfl, rfl⟩⟩⟩

end DropletsAutoscaler
